import Mathlib

/-!
Verification development for the dock402 x402 payment SDK chain adapters.

Shallow embedding of src/types/x402-protocol.ts, src/types/evm-payment.ts and
src/types/solana-payment.ts. JavaScript strings are modelled as Lean String,
JavaScript BigInt values as Nat, optional (possibly undefined) fields as
Option, and byte buffers as List Nat. The verify functions in the source are
async and wrapped in try/catch, but their bodies are pure field comparisons
that cannot throw, so they are modelled as pure Bool-valued functions.
-/

/-- Closed enum of supported networks, from X402Network in x402-protocol.ts. -/
inductive X402Network where
  | baseMainnet
  | baseSepolia
  | solanaMainnet
  | solanaDevnet
  | polygon
  | bsc
  | sei
  | peaq
deriving DecidableEq, Repr

/-- Payment scheme field of a specification, from x402-protocol.ts. -/
inductive X402Scheme where
  | exact
  | max
deriving DecidableEq, Repr

/-- Token contract reference, the price.asset object of X402PaymentSpec. -/
structure AssetRef where
  address : String
deriving DecidableEq, Repr

/-- Price block of X402PaymentSpec: amount in smallest unit (decimal string),
currency symbol, optional token asset address. -/
structure PriceSpec where
  amount : String
  currency : String
  asset : Option AssetRef
deriving DecidableEq, Repr

/-- Recipient block of X402PaymentSpec. -/
structure RecipientRef where
  address : String
deriving DecidableEq, Repr

/-- Resource block of X402PaymentSpec. -/
structure ResourceRef where
  uri : String
  description : Option String
deriving DecidableEq, Repr

/-- X402PaymentSpec from x402-protocol.ts. The free-form metadata dictionary
is omitted: no function in the source reads it. -/
structure X402PaymentSpec where
  version : String
  scheme : X402Scheme
  network : X402Network
  price : PriceSpec
  recipient : RecipientRef
  resource : ResourceRef
deriving DecidableEq, Repr

/-- EVMPaymentProof from evm-payment.ts, flattening the X402PaymentProof base
interface. The source field named from is called fromAddr here because from
is a Lean keyword. -/
structure EVMPaymentProof where
  txHash : String
  network : X402Network
  fromAddr : String
  toAddr : String
  amount : String
  timestamp : Nat
  blockNumber : Nat
  transactionIndex : Option Nat
  gasUsed : Option String
  effectiveGasPrice : Option String
deriving DecidableEq, Repr

/-- Solana confirmation status union from solana-payment.ts. -/
inductive ConfirmationStatus where
  | processed
  | confirmed
  | finalized
deriving DecidableEq, Repr

/-- SolanaPaymentProof from solana-payment.ts, flattening X402PaymentProof. -/
structure SolanaPaymentProof where
  txHash : String
  network : X402Network
  fromAddr : String
  toAddr : String
  amount : String
  timestamp : Nat
  blockNumber : Option Nat
  slot : Nat
  signature : String
  confirmationStatus : ConfirmationStatus
  fee : Option Nat
deriving DecidableEq, Repr

/-- EVMTransactionRequest from evm-payment.ts. The chainId field is declared
as number in TypeScript, but createEVMTransactionRequest obtains it through
an unchecked cast and a Record lookup that yields undefined for non-EVM
networks, so the runtime value is modelled as Option Nat. -/
structure EVMTransactionRequest where
  toAddr : String
  value : Option String
  data : Option String
  gasLimit : Option String
  maxFeePerGas : Option String
  maxPriorityFeePerGas : Option String
  chainId : Option Nat
deriving DecidableEq, Repr

/-- Account meta entry of a Solana instruction, from solana-payment.ts. -/
structure SolanaAccountMeta where
  pubkey : String
  isSigner : Bool
  isWritable : Bool
deriving DecidableEq, Repr

/-- SolanaInstruction from solana-payment.ts; the data buffer is a byte list. -/
structure SolanaInstruction where
  programId : String
  keys : List SolanaAccountMeta
  data : List Nat
deriving DecidableEq, Repr

/-- Optional compute budget block of SolanaTransactionRequest. -/
structure SolanaComputeBudget where
  units : Option Nat
  microLamports : Option Nat
deriving DecidableEq, Repr

/-- SolanaTransactionRequest from solana-payment.ts. -/
structure SolanaTransactionRequest where
  recentBlockhash : String
  feePayer : String
  instructions : List SolanaInstruction
  computeBudget : Option SolanaComputeBudget
deriving DecidableEq, Repr

/-! Numeric string helpers modelling the JavaScript primitives used by the
source: BigInt(decimalString), BigInt.prototype.toString(16),
String.prototype.padStart, and the DataView little-endian writes. -/

/-- Little-endian base-b digit expansion, driven by an explicit fuel argument
so that it reduces by kernel computation; fuel n is always enough. -/
def toDigitsLEAux (b : Nat) : Nat → Nat → List Nat
  | 0, _ => []
  | fuel + 1, n => if n = 0 then [] else n % b :: toDigitsLEAux b fuel (n / b)

/-- Little-endian base-b digits of n (empty for n = 0). -/
def toDigitsLE (b n : Nat) : List Nat :=
  toDigitsLEAux b n n

/-- Value of a little-endian digit list in base b. -/
def ofDigitsLE (b : Nat) : List Nat → Nat
  | [] => 0
  | d :: ds => d + b * ofDigitsLE b ds

/-- Lowercase hexadecimal digit characters, as produced by
BigInt.prototype.toString(16). -/
def hexDigitChar (d : Nat) : Char :=
  match d with
  | 0 => '0' | 1 => '1' | 2 => '2' | 3 => '3' | 4 => '4'
  | 5 => '5' | 6 => '6' | 7 => '7' | 8 => '8' | 9 => '9'
  | 10 => 'a' | 11 => 'b' | 12 => 'c' | 13 => 'd' | 14 => 'e'
  | 15 => 'f'
  | _ => '?'

/-- Numeric value of a hexadecimal digit character. -/
def hexCharVal (c : Char) : Nat :=
  match c with
  | '0' => 0 | '1' => 1 | '2' => 2 | '3' => 3 | '4' => 4
  | '5' => 5 | '6' => 6 | '7' => 7 | '8' => 8 | '9' => 9
  | 'a' => 10 | 'b' => 11 | 'c' => 12 | 'd' => 13 | 'e' => 14
  | 'f' => 15
  | _ => 0

/-- Model of BigInt(s) on a string of decimal digits. -/
def parseDecimal (s : String) : Nat :=
  s.data.foldl (fun acc c => acc * 10 + (c.toNat - 48)) 0

/-- Canonical decimal string of n, the unique string BigInt parses back to n
with no leading zeros (what JavaScript toString produces). -/
def decimalRepr (n : Nat) : String :=
  if n = 0 then "0" else String.mk ((toDigitsLE 10 n).reverse.map hexDigitChar)

/-- Model of BigInt.prototype.toString(16): big-endian lowercase hex digits,
no leading zeros, the single digit 0 for zero. -/
def natToHex (n : Nat) : String :=
  if n = 0 then "0" else String.mk ((toDigitsLE 16 n).reverse.map hexDigitChar)

/-- Model of String.prototype.padStart(len, c): left-pad to length len with
c, returning the string unchanged when it is already at least that long. -/
def padStart (s : String) (len : Nat) (c : Char) : String :=
  String.mk (List.replicate (len - s.length) c ++ s.data)

/-- Big-endian value of a hexadecimal digit string. -/
def hexValue (s : String) : Nat :=
  s.data.foldl (fun acc c => acc * 16 + hexCharVal c) 0

/-- First k bytes of n in little-endian order, modelling how a DataView
buffer stores an unsigned little-endian integer. -/
def leBytes (k n : Nat) : List Nat :=
  (List.range k).map (fun i => n / 2 ^ (8 * i) % 256)

/-- Model of String.prototype.toLowerCase restricted to the ASCII range used
by address strings: lowercases each character in place. -/
def strToLower (s : String) : String :=
  String.mk (s.data.map Char.toLower)

/-! EVM chain adapter, from evm-payment.ts. -/

/-- Zero-address sentinel meaning native token in createEVMTransactionRequest. -/
def zeroAddress : String := "0x0000000000000000000000000000000000000000"

/-- The isNativeToken condition computed by createEVMTransactionRequest:
spec.price.asset is absent or equal to the zero address. -/
def isNativeTokenEVM (spec : X402PaymentSpec) : Bool :=
  match spec.price.asset with
  | none => true
  | some a => a.address == zeroAddress

/-- Model of getChainId from evm-payment.ts. The TypeScript Record is keyed
only by the six EVM networks; createEVMTransactionRequest casts any
X402Network into it, and the lookup yields undefined (here none) for the
Solana networks. -/
def getChainId : X402Network → Option Nat
  | .baseMainnet => some 8453
  | .baseSepolia => some 84532
  | .polygon => some 137
  | .bsc => some 56
  | .sei => some 1329
  | .peaq => some 3338
  | .solanaMainnet => none
  | .solanaDevnet => none

/-- Model of encodeERC20Transfer: selector for transfer(address,uint256),
then the recipient minus its 0x prefix zero-padded to 64 hex chars, then the
amount in hex zero-padded to 64 hex chars. -/
def encodeERC20Transfer (toAddr amount : String) : String :=
  let functionSelector := "0xa9059cbb"
  let paddedAddress := padStart (toAddr.drop 2) 64 '0'
  let paddedAmount := padStart (natToHex (parseDecimal amount)) 64 '0'
  functionSelector ++ paddedAddress ++ paddedAmount

/-- Model of createEVMTransactionRequest from evm-payment.ts. -/
def createEVMTransactionRequest (spec : X402PaymentSpec) : EVMTransactionRequest :=
  if isNativeTokenEVM spec then
    { toAddr := spec.recipient.address
      value := some spec.price.amount
      data := none
      gasLimit := none
      maxFeePerGas := none
      maxPriorityFeePerGas := none
      chainId := getChainId spec.network }
  else
    { toAddr := (spec.price.asset.getD { address := "" }).address
      value := none
      data := some (encodeERC20Transfer spec.recipient.address spec.price.amount)
      gasLimit := none
      maxFeePerGas := none
      maxPriorityFeePerGas := none
      chainId := getChainId spec.network }

/-- Model of verifyEVMPayment from evm-payment.ts. The truthiness test on
proof.txHash is false exactly for the empty string. -/
def verifyEVMPayment (proof : EVMPaymentProof) (spec : X402PaymentSpec) : Bool :=
  strToLower proof.toAddr == strToLower spec.recipient.address &&
  proof.amount == spec.price.amount &&
  decide (proof.network = spec.network) &&
  !(proof.txHash == "")

/-! Solana chain adapter, from solana-payment.ts. -/

/-- The isNativeSOL condition computed by createSolanaTransactionRequest:
spec.price.asset is absent or the sentinel string native. -/
def isNativeSOL (spec : X402PaymentSpec) : Bool :=
  match spec.price.asset with
  | none => true
  | some a => a.address == "native"

/-- Model of getAssociatedTokenAddress from solana-payment.ts (the source is
an explicitly simplified placeholder concatenation, itself a pure function). -/
def getAssociatedTokenAddress (owner mint : String) : String :=
  owner ++ "_" ++ mint ++ "_ata"

/-- Model of encodeSOLTransfer: a 12-byte buffer holding the transfer
discriminator 2 as a 4-byte little-endian word (DataView.setUint32) followed
by the lamport amount as an 8-byte little-endian word (DataView.setBigUint64,
which stores its argument modulo 2 to the 64). -/
def encodeSOLTransfer (amount : String) : List Nat :=
  let instruction := 2
  let lamports := parseDecimal amount
  leBytes 4 (instruction % 2 ^ 32) ++ leBytes 8 (lamports % 2 ^ 64)

/-- Model of encodeSPLTokenTransfer: a 9-byte buffer holding the SPL transfer
discriminator 3 as one byte (DataView.setUint8) followed by the token amount
as an 8-byte little-endian word. -/
def encodeSPLTokenTransfer (amount : String) : List Nat :=
  let instruction := 3
  let tokenAmount := parseDecimal amount
  leBytes 1 (instruction % 2 ^ 8) ++ leBytes 8 (tokenAmount % 2 ^ 64)

/-- Model of createSolanaTransactionRequest from solana-payment.ts. -/
def createSolanaTransactionRequest (spec : X402PaymentSpec)
    (recentBlockhash feePayer : String) : SolanaTransactionRequest :=
  if isNativeSOL spec then
    { recentBlockhash := recentBlockhash
      feePayer := feePayer
      instructions := [
        { programId := "11111111111111111111111111111111"
          keys := [
            { pubkey := feePayer, isSigner := true, isWritable := true },
            { pubkey := spec.recipient.address, isSigner := false, isWritable := true } ]
          data := encodeSOLTransfer spec.price.amount } ]
      computeBudget := none }
  else
    { recentBlockhash := recentBlockhash
      feePayer := feePayer
      instructions := [
        { programId := "TokenkegQfeZyiNwAJbNbGKPFXCWuBvf9Ss623VQ5DA"
          keys := [
            { pubkey := getAssociatedTokenAddress feePayer
                (spec.price.asset.getD { address := "" }).address,
              isSigner := false, isWritable := true },
            { pubkey := (spec.price.asset.getD { address := "" }).address,
              isSigner := false, isWritable := false },
            { pubkey := getAssociatedTokenAddress spec.recipient.address
                (spec.price.asset.getD { address := "" }).address,
              isSigner := false, isWritable := true },
            { pubkey := feePayer, isSigner := true, isWritable := false } ]
          data := encodeSPLTokenTransfer spec.price.amount } ]
      computeBudget := none }

/-- Model of verifySolanaPayment from solana-payment.ts. Note that the source
lowercases both recipient strings, exactly as the EVM verifier does. -/
def verifySolanaPayment (proof : SolanaPaymentProof) (spec : X402PaymentSpec) : Bool :=
  strToLower proof.toAddr == strToLower spec.recipient.address &&
  proof.amount == spec.price.amount &&
  decide (proof.network = spec.network) &&
  !(proof.signature == "") &&
  decide (proof.confirmationStatus = ConfirmationStatus.finalized)

/-! Arithmetic facts about the digit and byte helpers. -/

/-- Reading back the little-endian digits of n recovers n. -/
theorem ofDigitsLE_toDigitsLEAux (b : Nat) (hb : 2 ≤ b) :
    ∀ fuel n, n ≤ fuel → ofDigitsLE b (toDigitsLEAux b fuel n) = n := by
  intro fuel
  induction fuel with
  | zero =>
    intro n hn
    interval_cases n
    simp [toDigitsLEAux, ofDigitsLE]
  | succ fuel ih =>
    intro n hn
    by_cases h0 : n = 0
    · simp [toDigitsLEAux, h0, ofDigitsLE]
    · have hdiv : n / b ≤ fuel := by
        have : n / b < n := Nat.div_lt_self (Nat.pos_of_ne_zero h0) (by omega)
        omega
      simp only [toDigitsLEAux, if_neg h0, ofDigitsLE, ih _ hdiv]
      exact Nat.mod_add_div n b

/-- Every digit produced by the expansion is below the base. -/
theorem toDigitsLEAux_mem_lt (b : Nat) (hb : 0 < b) :
    ∀ fuel n d, d ∈ toDigitsLEAux b fuel n → d < b := by
  intro fuel
  induction fuel with
  | zero => intro n d hd; simp [toDigitsLEAux] at hd
  | succ fuel ih =>
    intro n d hd
    by_cases h0 : n = 0
    · simp [toDigitsLEAux, h0] at hd
    · simp only [toDigitsLEAux, if_neg h0, List.mem_cons] at hd
      rcases hd with h | h
      · exact h ▸ Nat.mod_lt _ hb
      · exact ih _ _ h

/-- A number below b to the k has at most k base-b digits. -/
theorem toDigitsLEAux_length_le (b : Nat) (hb : 2 ≤ b) :
    ∀ fuel n k, n ≤ fuel → n < b ^ k → (toDigitsLEAux b fuel n).length ≤ k := by
  intro fuel
  induction fuel with
  | zero =>
    intro n k hn hk
    interval_cases n
    simp [toDigitsLEAux]
  | succ fuel ih =>
    intro n k hn hk
    by_cases h0 : n = 0
    · simp [toDigitsLEAux, h0]
    · match k with
      | 0 => simp at hk; omega
      | k + 1 =>
        have hdivfuel : n / b ≤ fuel := by
          have : n / b < n := Nat.div_lt_self (Nat.pos_of_ne_zero h0) (by omega)
          omega
        have hdivlt : n / b < b ^ k := by
          rw [Nat.div_lt_iff_lt_mul (by omega)]
          calc n < b ^ (k + 1) := hk
            _ = b ^ k * b := by ring
        simp only [toDigitsLEAux, if_neg h0, List.length_cons]
        have := ih (n / b) k hdivfuel hdivlt
        omega

/-- Folding the digits most-significant-first evaluates the digit list. -/
theorem foldl_mul_add_reverse (b : Nat) :
    ∀ (ds : List Nat) (acc : Nat),
      List.foldl (fun a d => a * b + d) acc ds.reverse =
        acc * b ^ ds.length + ofDigitsLE b ds := by
  intro ds
  induction ds with
  | nil => intro acc; simp [ofDigitsLE]
  | cons d tail ih =>
    intro acc
    simp only [List.reverse_cons, List.foldl_append, ih, ofDigitsLE, List.foldl_cons,
      List.foldl_nil, List.length_cons]
    ring

/-- Decimal digits round-trip through their character form. -/
theorem hexDigitChar_decimal_val : ∀ d, d < 10 → (hexDigitChar d).toNat - 48 = d := by
  decide

/-- Hexadecimal digits round-trip through their character form. -/
theorem hexCharVal_hexDigitChar : ∀ d, d < 16 → hexCharVal (hexDigitChar d) = d := by
  decide

/-- Model of BigInt parsing inverts the canonical decimal representation. -/
theorem parseDecimal_decimalRepr (n : Nat) : parseDecimal (decimalRepr n) = n := by
  by_cases h0 : n = 0
  · subst h0; rfl
  · show List.foldl _ 0 (decimalRepr n).data = n
    rw [decimalRepr, if_neg h0]
    show List.foldl _ 0 ((toDigitsLE 10 n).reverse.map hexDigitChar) = n
    rw [List.foldl_map]
    rw [List.foldl_ext _ (fun a d => a * 10 + d) 0 (fun a d hd => by
      rw [List.mem_reverse] at hd
      rw [hexDigitChar_decimal_val d (toDigitsLEAux_mem_lt 10 (by omega) _ _ _ hd)])]
    rw [foldl_mul_add_reverse, toDigitsLE,
      ofDigitsLE_toDigitsLEAux 10 (by omega) n n le_rfl]
    ring

/-- Reading a hex string produced by natToHex recovers the number. -/
theorem hexValue_natToHex (n : Nat) : hexValue (natToHex n) = n := by
  by_cases h0 : n = 0
  · subst h0; rfl
  · show List.foldl _ 0 (natToHex n).data = n
    rw [natToHex, if_neg h0]
    show List.foldl _ 0 ((toDigitsLE 16 n).reverse.map hexDigitChar) = n
    rw [List.foldl_map]
    rw [List.foldl_ext _ (fun a d => a * 16 + d) 0 (fun a d hd => by
      rw [List.mem_reverse] at hd
      rw [hexCharVal_hexDigitChar d (toDigitsLEAux_mem_lt 16 (by omega) _ _ _ hd)])]
    rw [foldl_mul_add_reverse, toDigitsLE,
      ofDigitsLE_toDigitsLEAux 16 (by omega) n n le_rfl]
    ring

/-- A number below 16 to the k prints with at most k hex digits. -/
theorem natToHex_length_le (n k : Nat) (hk : 0 < k) (hn : n < 16 ^ k) :
    (natToHex n).length ≤ k := by
  by_cases h0 : n = 0
  · subst h0
    show ("0" : String).length ≤ k
    simpa using hk
  · rw [natToHex, if_neg h0]
    show ((toDigitsLE 16 n).reverse.map hexDigitChar).length ≤ k
    rw [List.length_map, List.length_reverse, toDigitsLE]
    exact toDigitsLEAux_length_le 16 (by omega) n n k le_rfl hn

/-- Length of padStart output when the input does not exceed the target. -/
theorem padStart_length (s : String) (len : Nat) (c : Char) (h : s.length ≤ len) :
    (padStart s len c).length = len := by
  show (List.replicate (len - s.length) c ++ s.data).length = len
  rw [List.length_append, List.length_replicate]
  have hd : s.data.length = s.length := rfl
  omega

/-- Folding hex characters over a run of zero characters keeps the value 0. -/
theorem foldl_hex_replicate_zero :
    ∀ m, List.foldl (fun a c => a * 16 + hexCharVal c) 0 (List.replicate m '0') = 0 := by
  intro m
  induction m with
  | zero => rfl
  | succ m ih => simpa [List.replicate_succ, hexCharVal] using ih

/-- Left-padding a hex string with zero characters does not change its value. -/
theorem hexValue_padStart_zero (s : String) (len : Nat) :
    hexValue (padStart s len '0') = hexValue s := by
  show List.foldl _ 0 (List.replicate (len - s.length) '0' ++ s.data) =
    List.foldl _ 0 s.data
  rw [List.foldl_append, foldl_hex_replicate_zero]

/-- A DataView little-endian buffer of k bytes holds the value modulo 2 ^ (8 k). -/
theorem ofDigitsLE_leBytes : ∀ (k m : Nat), ofDigitsLE 256 (leBytes k m) = m % 2 ^ (8 * k) := by
  intro k
  induction k with
  | zero => intro m; simp [leBytes, ofDigitsLE, Nat.mod_one]
  | succ k ih =>
    intro m
    have hsplit : leBytes (k + 1) m = m % 256 :: leBytes k (m / 256) := by
      rw [leBytes, List.range_succ_eq_map, List.map_cons, List.map_map]
      congr 1
      · norm_num
      · rw [leBytes]
        apply List.map_congr_left
        intro i _
        show m / 2 ^ (8 * (i + 1)) % 256 = m / 256 / 2 ^ (8 * i) % 256
        rw [Nat.div_div_eq_div_mul]
        congr 2
        rw [show 8 * (i + 1) = 8 + 8 * i by ring, pow_add]
        norm_num
    rw [hsplit, ofDigitsLE, ih]
    rw [show (2 : Nat) ^ (8 * (k + 1)) = 256 * 2 ^ (8 * k) by
      rw [show 8 * (k + 1) = 8 + 8 * k by ring, pow_add]; norm_num]
    rw [Nat.mod_mul]

/-- A little-endian byte buffer has exactly k bytes. -/
theorem leBytes_length (k m : Nat) : (leBytes k m).length = k := by
  simp [leBytes]

/-- Every entry of a little-endian byte buffer is a byte. -/
theorem leBytes_mem_lt (k m : Nat) : ∀ byte ∈ leBytes k m, byte < 256 := by
  intro byte hmem
  simp only [leBytes, List.mem_map] at hmem
  obtain ⟨i, _, rfl⟩ := hmem
  exact Nat.mod_lt _ (by norm_num)

/-! Concrete example inputs used by evaluation and witness theorems. -/

/-- Example EVM payment specification on base-mainnet, native ETH. -/
def specBase : X402PaymentSpec :=
  { version := "1.0"
    scheme := X402Scheme.exact
    network := X402Network.baseMainnet
    price := { amount := "10000000000000000", currency := "ETH", asset := none }
    recipient := { address := "0xAbCdEf0123456789AbCdEf0123456789AbCdEf01" }
    resource := { uri := "https://api.example.com/data", description := none } }

/-- Example EVM payment specification on base-mainnet paying in USDC. -/
def specBaseToken : X402PaymentSpec :=
  { version := "1.0"
    scheme := X402Scheme.exact
    network := X402Network.baseMainnet
    price := { amount := "1000", currency := "USDC",
               asset := some { address := "0x833589fCD6eDb6E08f4c7C32D4f71b54bdA02913" } }
    recipient := { address := "0xAbCdEf0123456789AbCdEf0123456789AbCdEf01" }
    resource := { uri := "https://api.example.com/data", description := none } }

/-- Example Solana payment specification, native SOL. -/
def specSolNative : X402PaymentSpec :=
  { version := "1.0"
    scheme := X402Scheme.exact
    network := X402Network.solanaMainnet
    price := { amount := "1000000", currency := "SOL", asset := none }
    recipient := { address := "SoLRecipient1111111111111111111111111111111" }
    resource := { uri := "https://api.example.com/data", description := none } }

/-- Example EVM proof matching specBase (recipient in different letter case). -/
def proofBase : EVMPaymentProof :=
  { txHash := "0xdeadbeef"
    network := X402Network.baseMainnet
    fromAddr := "0x1111111111111111111111111111111111111111"
    toAddr := "0xabcdef0123456789abcdef0123456789abcdef01"
    amount := "10000000000000000"
    timestamp := 1700000000
    blockNumber := 123456
    transactionIndex := some 3
    gasUsed := some "21000"
    effectiveGasPrice := some "1000000000" }

/-- Same payment facts as proofBase with all ancillary chain data changed. -/
def proofBaseAncillary : EVMPaymentProof :=
  { txHash := "0xdeadbeef"
    network := X402Network.baseMainnet
    fromAddr := "0x2222222222222222222222222222222222222222"
    toAddr := "0xabcdef0123456789abcdef0123456789abcdef01"
    amount := "10000000000000000"
    timestamp := 1800000000
    blockNumber := 999999
    transactionIndex := none
    gasUsed := none
    effectiveGasPrice := none }

/-- Example finalized Solana proof matching specSolNative. -/
def proofSolFinal : SolanaPaymentProof :=
  { txHash := "5KtPn1Example"
    network := X402Network.solanaMainnet
    fromAddr := "Payer1111111111111111111111111111111111111"
    toAddr := "SoLRecipient1111111111111111111111111111111"
    amount := "1000000"
    timestamp := 1700000000
    blockNumber := some 200
    slot := 200
    signature := "5KtPn1Example"
    confirmationStatus := ConfirmationStatus.finalized
    fee := some 5000 }

/-- Same payment facts as proofSolFinal with ancillary chain data changed. -/
def proofSolFinalAncillary : SolanaPaymentProof :=
  { txHash := "5KtPn1Example"
    network := X402Network.solanaMainnet
    fromAddr := "OtherPayer111111111111111111111111111111111"
    toAddr := "SoLRecipient1111111111111111111111111111111"
    amount := "1000000"
    timestamp := 1800000000
    blockNumber := none
    slot := 999
    signature := "5KtPn1Example"
    confirmationStatus := ConfirmationStatus.finalized
    fee := none }

/-- Solana proof matching specSolNative in every field but only confirmed. -/
def proofSolConfirmed : SolanaPaymentProof :=
  { txHash := "5KtPn1Example"
    network := X402Network.solanaMainnet
    fromAddr := "Payer1111111111111111111111111111111111111"
    toAddr := "SoLRecipient1111111111111111111111111111111"
    amount := "1000000"
    timestamp := 1700000000
    blockNumber := some 200
    slot := 200
    signature := "5KtPn1Example"
    confirmationStatus := ConfirmationStatus.confirmed
    fee := some 5000 }

/-- Finalized Solana proof whose recipient differs from specSolNative only in
letter case. -/
def proofSolCaseVariant : SolanaPaymentProof :=
  { txHash := "5KtPn1Example"
    network := X402Network.solanaMainnet
    fromAddr := "Payer1111111111111111111111111111111111111"
    toAddr := "solrecipient1111111111111111111111111111111"
    amount := "1000000"
    timestamp := 1700000000
    blockNumber := some 200
    slot := 200
    signature := "5KtPn1Example"
    confirmationStatus := ConfirmationStatus.finalized
    fee := some 5000 }

/-! Claim theorems. -/

/-- C1: verifyEVMPayment returns true exactly when the recipient matches the
specification case-insensitively, the amount matches as an exact string, the
network matches, and a transaction hash is present; a mismatch in any of the
three comparisons forces false, and no other proof field influences the
result. -/
theorem verifyEVMPayment_true_iff (proof : EVMPaymentProof) (spec : X402PaymentSpec) :
    verifyEVMPayment proof spec = true ↔
      (strToLower proof.toAddr = strToLower spec.recipient.address ∧
       proof.amount = spec.price.amount ∧
       proof.network = spec.network ∧
       proof.txHash ≠ "") := by
  simp [verifyEVMPayment, and_assoc]

/-- C1 witness: a concrete matching proof (recipient differing only in case,
all ancillary fields arbitrary) is accepted. -/
theorem verifyEVMPayment_true_iff_witness :
    verifyEVMPayment proofBase specBase = true :=
  (verifyEVMPayment_true_iff proofBase specBase).mpr
    ⟨by decide, rfl, rfl, by decide⟩

/-- C2: a Solana proof whose confirmation status is processed or confirmed is
rejected whatever its other fields hold; since the status enum has only three
members, acceptance is possible only at finalized. -/
theorem verifySolanaPayment_requires_finalized (proof : SolanaPaymentProof)
    (spec : X402PaymentSpec)
    (h : proof.confirmationStatus = ConfirmationStatus.processed ∨
         proof.confirmationStatus = ConfirmationStatus.confirmed) :
    verifySolanaPayment proof spec = false := by
  have hne : proof.confirmationStatus ≠ ConfirmationStatus.finalized := by
    rcases h with h | h <;> simp [h]
  have hd : decide (proof.confirmationStatus = ConfirmationStatus.finalized) = false :=
    decide_eq_false hne
  simp [verifySolanaPayment, hd]

/-- C2 witness: a proof matching specSolNative in every compared field but
reporting only confirmed status is rejected. -/
theorem verifySolanaPayment_requires_finalized_witness :
    verifySolanaPayment proofSolConfirmed specSolNative = false :=
  verifySolanaPayment_requires_finalized proofSolConfirmed specSolNative (Or.inr rfl)

/-- C3: counter-evaluation. verifySolanaPayment lowercases both recipient
strings exactly as the EVM verifier does, so a finalized proof whose
recipient differs from the specification recipient only in letter case is
accepted even though the two address strings are different. -/
theorem verifySolanaPayment_accepts_case_variant_recipient :
    verifySolanaPayment proofSolCaseVariant specSolNative = true ∧
    proofSolCaseVariant.toAddr ≠ specSolNative.recipient.address := by
  constructor
  · decide
  · decide

/-- C4: counter-evaluation. For a specification on a Solana network,
createEVMTransactionRequest does not fail: it returns an ordinary transaction
request whose chainId is undefined, because the chain-id Record lookup on a
non-EVM key silently yields undefined instead of raising UnsupportedNetwork. -/
theorem createEVMTransactionRequest_solana_network_returns_request :
    createEVMTransactionRequest specSolNative =
      { toAddr := "SoLRecipient1111111111111111111111111111111"
        value := some "1000000"
        data := none
        gasLimit := none
        maxFeePerGas := none
        maxPriorityFeePerGas := none
        chainId := none } := by
  decide

/-- C7: transaction building is deterministic. Both builders are pure
functions of the specification and the explicit chain context, so equal
inputs give equal transaction payloads; there is no hidden state, clock or
randomness in the source. -/
theorem buildTransactionRequest_deterministic (e1 e2 s1 s2 : X402PaymentSpec)
    (bh1 bh2 fp1 fp2 : String) (he : e1 = e2) (hs : s1 = s2)
    (hbh : bh1 = bh2) (hfp : fp1 = fp2) :
    createEVMTransactionRequest e1 = createEVMTransactionRequest e2 ∧
    createSolanaTransactionRequest s1 bh1 fp1 = createSolanaTransactionRequest s2 bh2 fp2 := by
  subst he; subst hs; subst hbh; subst hfp
  exact ⟨rfl, rfl⟩

/-- C7 witness: determinism instantiated at a concrete specification and
chain context. -/
theorem buildTransactionRequest_deterministic_witness :
    createEVMTransactionRequest specBase = createEVMTransactionRequest specBase ∧
    createSolanaTransactionRequest specSolNative "Blockhash1" "Payer1" =
      createSolanaTransactionRequest specSolNative "Blockhash1" "Payer1" :=
  buildTransactionRequest_deterministic specBase specBase specSolNative specSolNative
    "Blockhash1" "Blockhash1" "Payer1" "Payer1" rfl rfl rfl rfl

/-- C9: local proof verification reads nothing beyond recipient, amount,
network and the transaction identifier (plus confirmation status on Solana):
two proofs agreeing on those fields verify identically against any
specification, whatever their sender, timestamp, block, slot, gas or fee
data. -/
theorem verifyPayment_ignores_ancillary_fields (p1 p2 : EVMPaymentProof)
    (q1 q2 : SolanaPaymentProof) (specE specS : X402PaymentSpec)
    (hto : p1.toAddr = p2.toAddr) (ham : p1.amount = p2.amount)
    (hnw : p1.network = p2.network) (htx : p1.txHash = p2.txHash)
    (hqto : q1.toAddr = q2.toAddr) (hqam : q1.amount = q2.amount)
    (hqnw : q1.network = q2.network) (hqsig : q1.signature = q2.signature)
    (hqcs : q1.confirmationStatus = q2.confirmationStatus) :
    verifyEVMPayment p1 specE = verifyEVMPayment p2 specE ∧
    verifySolanaPayment q1 specS = verifySolanaPayment q2 specS := by
  unfold verifyEVMPayment verifySolanaPayment
  rw [hto, ham, hnw, htx, hqto, hqam, hqnw, hqsig, hqcs]
  exact ⟨rfl, rfl⟩

/-- C9 witness: concrete proof pairs differing in sender, timestamp, block
number, transaction index, gas data, slot and fee verify identically. -/
theorem verifyPayment_ignores_ancillary_fields_witness :
    verifyEVMPayment proofBase specBase = verifyEVMPayment proofBaseAncillary specBase ∧
    verifySolanaPayment proofSolFinal specSolNative =
      verifySolanaPayment proofSolFinalAncillary specSolNative :=
  verifyPayment_ignores_ancillary_fields proofBase proofBaseAncillary
    proofSolFinal proofSolFinalAncillary specBase specSolNative
    rfl rfl rfl rfl rfl rfl rfl rfl rfl

/-- C10: every request built by createEVMTransactionRequest sets value
exactly on the native path (asset absent or the zero address) and data
exactly on the token path, never both; the gas fields are always left unset. -/
theorem evm_request_value_data_exclusive (spec : X402PaymentSpec) :
    ((createEVMTransactionRequest spec).value.isSome = true ↔
      (spec.price.asset = none ∨ spec.price.asset = some { address := zeroAddress })) ∧
    (createEVMTransactionRequest spec).data.isSome =
      (createEVMTransactionRequest spec).value.isNone ∧
    (createEVMTransactionRequest spec).gasLimit = none ∧
    (createEVMTransactionRequest spec).maxFeePerGas = none ∧
    (createEVMTransactionRequest spec).maxPriorityFeePerGas = none := by
  rcases hA : spec.price.asset with _ | a
  · simp [createEVMTransactionRequest, isNativeTokenEVM, hA]
  · by_cases hz : a.address = zeroAddress
    · have ha2 : a = { address := zeroAddress } := by
        cases a
        simp_all
      simp [createEVMTransactionRequest, isNativeTokenEVM, hA, ha2]
    · have hb : (a.address == zeroAddress) = false := by
        simp [hz]
      simp [createEVMTransactionRequest, isNativeTokenEVM, hA, hb, hz]
      intro h
      cases a
      simp_all

/-- C5: with the chain-appropriate native sentinel (asset absent, the EVM
zero address, or the Solana string native), both builders emit a native
transfer of exactly the specified amount to the specified recipient; with any
other set asset they emit a contract or program call (EVM: data-carrying call
to the token contract with no native value; Solana: a Token-Program
instruction whose third account is the recipient's associated token account),
never a native transfer. -/
theorem buildTransactionRequest_native_vs_token (spec : X402PaymentSpec) (bh fp : String) :
    ((spec.price.asset = none ∨ spec.price.asset = some { address := zeroAddress }) →
      (createEVMTransactionRequest spec).toAddr = spec.recipient.address ∧
      (createEVMTransactionRequest spec).value = some spec.price.amount ∧
      (createEVMTransactionRequest spec).data = none) ∧
    (∀ a : AssetRef, spec.price.asset = some a → a.address ≠ zeroAddress →
      (createEVMTransactionRequest spec).toAddr = a.address ∧
      (createEVMTransactionRequest spec).value = none ∧
      (createEVMTransactionRequest spec).data =
        some (encodeERC20Transfer spec.recipient.address spec.price.amount)) ∧
    ((spec.price.asset = none ∨ spec.price.asset = some { address := "native" }) →
      (createSolanaTransactionRequest spec bh fp).instructions =
        [⟨"11111111111111111111111111111111",
          [⟨fp, true, true⟩, ⟨spec.recipient.address, false, true⟩],
          encodeSOLTransfer spec.price.amount⟩]) ∧
    (∀ a : AssetRef, spec.price.asset = some a → a.address ≠ "native" →
      ∃ instr, (createSolanaTransactionRequest spec bh fp).instructions = [instr] ∧
        instr.programId = "TokenkegQfeZyiNwAJbNbGKPFXCWuBvf9Ss623VQ5DA" ∧
        instr.programId ≠ "11111111111111111111111111111111" ∧
        instr.keys.map SolanaAccountMeta.pubkey =
          [getAssociatedTokenAddress fp a.address, a.address,
           getAssociatedTokenAddress spec.recipient.address a.address, fp] ∧
        instr.data = encodeSPLTokenTransfer spec.price.amount) := by
  refine ⟨?_, ?_, ?_, ?_⟩
  · intro h
    have hnat : isNativeTokenEVM spec = true := by
      rcases h with h | h <;> simp [isNativeTokenEVM, h]
    simp [createEVMTransactionRequest, hnat]
  · intro a ha hz
    have hnat : isNativeTokenEVM spec = false := by
      simp [isNativeTokenEVM, ha, hz]
    simp [createEVMTransactionRequest, hnat, ha]
  · intro h
    have hnat : isNativeSOL spec = true := by
      rcases h with h | h <;> simp [isNativeSOL, h]
    simp [createSolanaTransactionRequest, hnat]
  · intro a ha hz
    have hnat : isNativeSOL spec = false := by
      simp [isNativeSOL, ha, hz]
    have hinstr : (createSolanaTransactionRequest spec bh fp).instructions =
        [⟨"TokenkegQfeZyiNwAJbNbGKPFXCWuBvf9Ss623VQ5DA",
          [⟨getAssociatedTokenAddress fp a.address, false, true⟩,
           ⟨a.address, false, false⟩,
           ⟨getAssociatedTokenAddress spec.recipient.address a.address, false, true⟩,
           ⟨fp, true, false⟩],
          encodeSPLTokenTransfer spec.price.amount⟩] := by
      simp [createSolanaTransactionRequest, hnat, ha]
    exact ⟨_, hinstr, rfl,
      (by decide : ("TokenkegQfeZyiNwAJbNbGKPFXCWuBvf9Ss623VQ5DA" : String) ≠
        "11111111111111111111111111111111"), rfl, rfl⟩

/-- C5 witness: the native and token branches instantiated concretely: the
native base-mainnet specification yields a value transfer, and the USDC
specification yields a data-carrying call to the token contract. -/
theorem buildTransactionRequest_native_vs_token_witness :
    ((createEVMTransactionRequest specBase).toAddr = specBase.recipient.address ∧
     (createEVMTransactionRequest specBase).value = some specBase.price.amount ∧
     (createEVMTransactionRequest specBase).data = none) ∧
    ((createEVMTransactionRequest specBaseToken).toAddr =
       "0x833589fCD6eDb6E08f4c7C32D4f71b54bdA02913" ∧
     (createEVMTransactionRequest specBaseToken).value = none ∧
     (createEVMTransactionRequest specBaseToken).data =
       some (encodeERC20Transfer specBaseToken.recipient.address
         specBaseToken.price.amount)) :=
  ⟨(buildTransactionRequest_native_vs_token specBase "Blockhash1" "Payer1").1 (Or.inl rfl),
   (buildTransactionRequest_native_vs_token specBaseToken "Blockhash1" "Payer1").2.1
     { address := "0x833589fCD6eDb6E08f4c7C32D4f71b54bdA02913" } rfl (by decide)⟩

/-- C6: for a set non-zero asset the built request calls the token contract
with the standard transfer(address,uint256) ABI encoding: the selector
0xa9059cbb, then the recipient (minus its 0x prefix) left-padded with zero
characters to 32 bytes, then the amount written big-endian and left-padded
with zero characters to 32 bytes; the amount block has exactly 64 hex digits
and reads back, big-endian, to the specified amount. -/
theorem erc20_transfer_abi_encoding (spec : X402PaymentSpec) (a : AssetRef) (n : Nat)
    (ha : spec.price.asset = some a) (hz : a.address ≠ zeroAddress)
    (ham : spec.price.amount = decimalRepr n) (hn : n < 16 ^ 64) :
    (createEVMTransactionRequest spec).toAddr = a.address ∧
    (createEVMTransactionRequest spec).data =
      some ("0xa9059cbb" ++ padStart (spec.recipient.address.drop 2) 64 '0' ++
        padStart (natToHex n) 64 '0') ∧
    (padStart (natToHex n) 64 '0').length = 64 ∧
    hexValue (padStart (natToHex n) 64 '0') = n := by
  have hnat : isNativeTokenEVM spec = false := by
    simp [isNativeTokenEVM, ha, hz]
  refine ⟨?_, ?_, ?_, ?_⟩
  · simp [createEVMTransactionRequest, hnat, ha]
  · simp [createEVMTransactionRequest, hnat, encodeERC20Transfer, ham,
      parseDecimal_decimalRepr]
  · exact padStart_length _ _ _ (natToHex_length_le n 64 (by omega) hn)
  · rw [hexValue_padStart_zero, hexValue_natToHex]

/-- C6 witness: the ABI layout instantiated at the USDC specification with
amount 1000. -/
theorem erc20_transfer_abi_encoding_witness :
    (createEVMTransactionRequest specBaseToken).data =
      some ("0xa9059cbb" ++ padStart (specBaseToken.recipient.address.drop 2) 64 '0' ++
        padStart (natToHex 1000) 64 '0') :=
  (erc20_transfer_abi_encoding specBaseToken
    { address := "0x833589fCD6eDb6E08f4c7C32D4f71b54bdA02913" } 1000
    rfl (by decide) (by decide) (by norm_num)).2.1

/-- C8: on the native-SOL path the builder emits exactly one System-Program
instruction whose data is 12 bytes, the discriminator 2 as a 4-byte
little-endian word followed by the amount as an 8-byte little-endian unsigned
integer; on the SPL path the single Token-Program instruction carries 9
bytes, the discriminator 3 as one byte followed by the amount as an 8-byte
little-endian unsigned integer. -/
theorem solana_transfer_instruction_layout (spec : X402PaymentSpec) (bh fp : String)
    (n : Nat) (ham : spec.price.amount = decimalRepr n) (hn : n < 2 ^ 64) :
    ((spec.price.asset = none ∨ spec.price.asset = some { address := "native" }) →
      ∃ instr, (createSolanaTransactionRequest spec bh fp).instructions = [instr] ∧
        instr.programId = "11111111111111111111111111111111" ∧
        instr.data.length = 12 ∧
        instr.data.take 4 = [2, 0, 0, 0] ∧
        (∀ byte ∈ instr.data.drop 4, byte < 256) ∧
        ofDigitsLE 256 (instr.data.drop 4) = n) ∧
    (∀ a : AssetRef, spec.price.asset = some a → a.address ≠ "native" →
      ∃ instr, (createSolanaTransactionRequest spec bh fp).instructions = [instr] ∧
        instr.programId = "TokenkegQfeZyiNwAJbNbGKPFXCWuBvf9Ss623VQ5DA" ∧
        instr.data.length = 9 ∧
        instr.data.take 1 = [3] ∧
        (∀ byte ∈ instr.data.drop 1, byte < 256) ∧
        ofDigitsLE 256 (instr.data.drop 1) = n) := by
  have hsol : encodeSOLTransfer spec.price.amount = [2, 0, 0, 0] ++ leBytes 8 n := by
    show leBytes 4 (2 % 2 ^ 32) ++ leBytes 8 (parseDecimal spec.price.amount % 2 ^ 64) = _
    rw [ham, parseDecimal_decimalRepr, Nat.mod_eq_of_lt hn]
    congr 1
  have hspl : encodeSPLTokenTransfer spec.price.amount = [3] ++ leBytes 8 n := by
    show leBytes 1 (3 % 2 ^ 8) ++ leBytes 8 (parseDecimal spec.price.amount % 2 ^ 64) = _
    rw [ham, parseDecimal_decimalRepr, Nat.mod_eq_of_lt hn]
    congr 1
  have hval : ofDigitsLE 256 (leBytes 8 n) = n := by
    rw [ofDigitsLE_leBytes]
    exact Nat.mod_eq_of_lt (by simpa using hn)
  constructor
  · intro h
    have hnat : isNativeSOL spec = true := by
      rcases h with h | h <;> simp [isNativeSOL, h]
    have hinstr : (createSolanaTransactionRequest spec bh fp).instructions =
        [⟨"11111111111111111111111111111111",
          [⟨fp, true, true⟩, ⟨spec.recipient.address, false, true⟩],
          [2, 0, 0, 0] ++ leBytes 8 n⟩] := by
      simp only [createSolanaTransactionRequest, hnat, if_true, hsol]
    refine ⟨_, hinstr, rfl, ?_, rfl, leBytes_mem_lt 8 n, hval⟩
    show ([2, 0, 0, 0] ++ leBytes 8 n).length = 12
    rw [List.length_append, leBytes_length]
    rfl
  · intro a ha hz
    have hnat : isNativeSOL spec = false := by
      simp [isNativeSOL, ha, hz]
    have hinstr : (createSolanaTransactionRequest spec bh fp).instructions =
        [⟨"TokenkegQfeZyiNwAJbNbGKPFXCWuBvf9Ss623VQ5DA",
          [⟨getAssociatedTokenAddress fp a.address, false, true⟩,
           ⟨a.address, false, false⟩,
           ⟨getAssociatedTokenAddress spec.recipient.address a.address, false, true⟩,
           ⟨fp, true, false⟩],
          [3] ++ leBytes 8 n⟩] := by
      simp only [createSolanaTransactionRequest, hnat, Bool.false_eq_true, if_false, ha,
        Option.getD_some, hspl]
    refine ⟨_, hinstr, rfl, ?_, rfl, leBytes_mem_lt 8 n, hval⟩
    show ([3] ++ leBytes 8 n).length = 9
    rw [List.length_append, leBytes_length]
    rfl

/-- C8 witness: the native instruction layout instantiated at the concrete
SOL specification quoting 1000000 lamports. -/
theorem solana_transfer_instruction_layout_witness :
    ∃ instr, (createSolanaTransactionRequest specSolNative "Blockhash1" "Payer1").instructions =
        [instr] ∧
      instr.programId = "11111111111111111111111111111111" ∧
      instr.data.length = 12 ∧
      instr.data.take 4 = [2, 0, 0, 0] ∧
      (∀ byte ∈ instr.data.drop 4, byte < 256) ∧
      ofDigitsLE 256 (instr.data.drop 4) = 1000000 :=
  (solana_transfer_instruction_layout specSolNative "Blockhash1" "Payer1" 1000000
    (by decide) (by norm_num)).1 (Or.inl rfl)

/-- C10 witness: the exclusivity facts instantiated at the concrete native
base-mainnet specification. -/
theorem evm_request_value_data_exclusive_witness :
    ((createEVMTransactionRequest specBase).value.isSome = true ↔
      (specBase.price.asset = none ∨
       specBase.price.asset = some { address := zeroAddress })) ∧
    (createEVMTransactionRequest specBase).data.isSome =
      (createEVMTransactionRequest specBase).value.isNone ∧
    (createEVMTransactionRequest specBase).gasLimit = none ∧
    (createEVMTransactionRequest specBase).maxFeePerGas = none ∧
    (createEVMTransactionRequest specBase).maxPriorityFeePerGas = none :=
  evm_request_value_data_exclusive specBase
